import Mathlib

/-!
Verification of the requester-side job scheduler and supporting API of the
bacalhau repository, translated as a shallow embedding.

The scheduler state machine is translated from
src/pkg/requester/scheduler_state.go.  The collaborators that the scheduler
calls (stopJob, notifyAskForBid, the store operations, the verifier glue)
live outside the given sources, so they are modelled from the specification
and clearly marked as such in their doc comments.  The node selector, retry
strategy and verifier are interfaces in the source, so they are parameters
of the embedding (the Deps structure).
-/

namespace Bacalhau

/-- Coarse job state.  Modelled from the spec, section 3: the source model
package is not among the given files.  Terminal states are the last four. -/
inductive JobStateType
  | new
  | inProgress
  | completedSuccessfully
  | completedPartially
  | failed
  | cancelled
deriving DecidableEq, Repr

/-- Terminal check for a coarse job state (spec section 3: terminal states
are CompletedSuccessfully, CompletedPartially, Failed, Cancelled). -/
def JobStateType.isTerminal : JobStateType → Bool
  | .completedSuccessfully => true
  | .completedPartially => true
  | .failed => true
  | .cancelled => true
  | _ => false

/-- Execution state.  Modelled from the spec, section 3. -/
inductive ExecStateType
  | askedToBid
  | bidReceived
  | bidAccepted
  | bidRejected
  | resultProposed
  | resultAccepted
  | resultRejected
  | completed
  | failed
  | cancelled
deriving DecidableEq, Repr

/-- Terminal check for an execution state.  Modelled from the spec: rejected
bids and rejected results are terminal for the attempt, as are Completed,
Failed and Cancelled. -/
def ExecStateType.isTerminalExec : ExecStateType → Bool
  | .bidRejected => true
  | .resultRejected => true
  | .completed => true
  | .failed => true
  | .cancelled => true
  | _ => false

/-- One execution attempt of a job on one compute node (spec section 3).
UpdateTime is an abstract tick; result payloads are not needed by the
scheduler logic under verification and are omitted. -/
structure ExecutionState where
  id : Nat
  jobID : String
  nodeID : String
  state : ExecStateType
  status : String
  updateTime : Nat
deriving DecidableEq, Repr

/-- Mutable state of one job: coarse state, a status message and the ordered
collection of executions (spec section 3). -/
structure JobState where
  state : JobStateType
  status : String
  executions : List ExecutionState
deriving DecidableEq, Repr

/-- The immutable job record.  Only the identifier is consulted by the
scheduler logic under verification. -/
structure Job where
  id : String
deriving DecidableEq, Repr

/-- The job/execution store: a durable map from job id to job record and to
job state (spec section 4.2), embedded as association lists. -/
structure Store where
  jobs : List (String × Job)
  states : List (String × JobState)
deriving DecidableEq, Repr

/-- Replace the state recorded for a job id. -/
def Store.setJobState (st : Store) (jobID : String) (js : JobState) : Store :=
  { st with states := st.states.map (fun p => if p.1 == jobID then (jobID, js) else p) }

/-- Modelled from the spec, section 4.2: UpdateJobState fails when the job is
unknown (NotFound) and rejects any update of a terminal JobState
(JobTerminated). -/
def Store.updateJobState (st : Store) (jobID : String) (newState : JobStateType) : Option Store :=
  match st.states.lookup jobID with
  | none => none
  | some js =>
    if js.state.isTerminal then none
    else some (st.setJobState jobID { js with state := newState })

/-- Modelled from the spec, section 4.2: update the state of the execution
with the given id; rejected when the job is unknown or its JobState is
terminal. -/
def Store.updateExecState (st : Store) (jobID : String) (execId : Nat)
    (newState : ExecStateType) : Option Store :=
  match st.states.lookup jobID with
  | none => none
  | some js =>
    if js.state.isTerminal then none
    else some (st.setJobState jobID
      { js with executions :=
          js.executions.map (fun e => if e.id == execId then { e with state := newState } else e) })

/-- Modelled from the spec, sections 4.2 and 4.6: the inbound-event table
updates the execution of a given node; rejected when the job is unknown or
its JobState is terminal. -/
def Store.updateExecByNode (st : Store) (jobID nodeID : String)
    (newState : ExecStateType) (status : String) : Option Store :=
  match st.states.lookup jobID with
  | none => none
  | some js =>
    if js.state.isTerminal then none
    else some (st.setJobState jobID
      { js with executions :=
          js.executions.map (fun e =>
            if e.nodeID == nodeID then { e with state := newState, status := status } else e) })

/-- Outbound events published by the scheduler (spec sections 4.6 and 6). -/
inductive OutEvent
  | askForBid (jobID nodeID : String)
  | bidAcceptedEv (jobID : String) (execId : Nat)
  | bidRejectedEv (jobID : String) (execId : Nat)
  | resultAcceptedEv (jobID : String) (execId : Nat)
  | resultRejectedEv (jobID : String) (execId : Nat)
  | cancelExecution (jobID nodeID : String)
deriving DecidableEq, Repr

/-- The scheduler-visible state: the store plus the trace of published
events and the trace of stopJob calls (jobID, message, third boolean
argument, named permanent by the spec). -/
structure SchedState where
  store : Store
  events : List OutEvent
  stops : List (String × String × Bool)
deriving DecidableEq, Repr

/-- Outcome of the verification step.  The source distinguishes
ErrInsufficientExecutions from other (hard) errors, and otherwise obtains
the succeeded and failed executions. -/
inductive VerifyOutcome
  | insufficient
  | hardError (msg : String)
  | ok (succeeded failed : List ExecutionState)
deriving DecidableEq, Repr

/-- The scheduler's pluggable dependencies: node selector, retry strategy,
verifier, completion policy (interfaces in the source, spec sections
4.3 to 4.5). -/
structure Deps where
  selectNodesForRetry : Job → JobState → List String × Option String
  shouldRetry : String → Bool
  selectBids : Job → JobState → List ExecutionState × List ExecutionState
  verify : Job → List ExecutionState → VerifyOutcome
  canCompleteJob : Job → JobState → Bool × JobStateType

/-- Modelled from the spec, section 4.6: stopJob updates the JobState to
Failed with Status set to the message, publishes CancelExecution to every
node holding a non-terminal execution, and (for this embedding) records the
call with its third, boolean argument in the stops trace.  The store
update is subject to the terminal-rejection invariant of section 4.2. -/
def stopJob (jobID msg : String) (permanent : Bool) (s : SchedState) : SchedState :=
  let s1 : SchedState := { s with stops := s.stops ++ [(jobID, msg, permanent)] }
  match s1.store.states.lookup jobID with
  | none => s1
  | some js =>
    if js.state.isTerminal then s1
    else
      { s1 with
        store := s1.store.setJobState jobID { js with state := .failed, status := msg },
        events :=
          s1.events ++
            (js.executions.filter (fun e => !e.state.isTerminalExec)).map (fun e =>
              OutEvent.cancelExecution jobID e.nodeID) }

/-- A fresh execution row created when asking a node to bid (spec section
4.6 step 2: create new Execution rows in AskedToBid). -/
def newAskedExec (jobID node : String) (n : Nat) : ExecutionState :=
  { id := n, jobID := jobID, nodeID := node, state := .askedToBid, status := "", updateTime := 0 }

/-- Modelled from the spec, section 4.6 step 2: publish AskForBid to one
node and create a new Execution row in AskedToBid (rejected by the store
when the job is unknown or terminal). -/
def askOneNode (job : Job) (node : String) (s : SchedState) : SchedState :=
  let s1 : SchedState := { s with events := s.events ++ [OutEvent.askForBid job.id node] }
  match s1.store.states.lookup job.id with
  | none => s1
  | some js =>
    if js.state.isTerminal then s1
    else
      { s1 with store :=
          (s1.store.setJobState job.id
            { js with executions := js.executions ++ [newAskedExec job.id node js.executions.length] }) }

/-- Modelled from the spec, section 4.6 step 2: emit AskForBid to the
selected nodes. -/
def notifyAskForBid (job : Job) (nodes : List String) (s : SchedState) : SchedState :=
  nodes.foldl (fun acc node => askOneNode job node acc) s

/-- The message-aggregation loop of checkForFailedExecutions
(src/pkg/requester/scheduler_state.go, lines 61 to 71): walk the executions
carrying the most recent Failed execution seen so far (Go zero time at
start, Before is a strict comparison) and collect one message per Failed
execution with a strictly larger update time. -/
def failureMessagesAux : List ExecutionState → Nat → List String → List String
  | [], _, acc => acc
  | e :: rest, lastTime, acc =>
    if e.state == .failed && decide (lastTime < e.updateTime) then
      failureMessagesAux rest e.updateTime
        (acc ++ ["node " ++ e.nodeID ++ " failed due to: " ++ e.status])
    else
      failureMessagesAux rest lastTime acc

def failureMessages (execs : List ExecutionState) : List String :=
  failureMessagesAux execs 0 []

/-- multierr renders the combined error by joining the messages with a
semicolon and a space; with no messages the Go errMsg stays empty. -/
def aggregatedFailureMessage (execs : List ExecutionState) : String :=
  String.intercalate "; " (failureMessages execs)

/-- checkForFailedExecutions (src/pkg/requester/scheduler_state.go, lines 54
to 77): stop the job when the selector errs or when there are retry nodes
but retrying is not permitted; otherwise ask the retry nodes for bids. -/
def checkForFailedExecutions (d : Deps) (job : Job) (jobState : JobState)
    (s : SchedState) : SchedState :=
  let sel := d.selectNodesForRetry job jobState
  let nodesToRetry := sel.1
  let canRetry := d.shouldRetry job.id
  if sel.2.isSome || (decide (0 < nodesToRetry.length) && !canRetry) then
    stopJob job.id (aggregatedFailureMessage jobState.executions) false s
  else if 0 < nodesToRetry.length then
    notifyAskForBid job nodesToRetry s
  else s

/-- Modelled from the spec, section 4.6 step 3: on an accepted bid, update
the execution to BidAccepted and publish BidAccepted; dropped silently when
the store rejects the update. -/
def updateAndNotifyBidAccepted (bid : ExecutionState) (s : SchedState) : SchedState :=
  match s.store.updateExecState bid.jobID bid.id .bidAccepted with
  | none => s
  | some st => { s with store := st, events := s.events ++ [OutEvent.bidAcceptedEv bid.jobID bid.id] }

/-- Modelled from the spec, section 4.6 step 3: on a rejected bid, update
the execution to BidRejected and publish BidRejected; dropped silently when
the store rejects the update. -/
def updateAndNotifyBidRejected (bid : ExecutionState) (s : SchedState) : SchedState :=
  match s.store.updateExecState bid.jobID bid.id .bidRejected with
  | none => s
  | some st => { s with store := st, events := s.events ++ [OutEvent.bidRejectedEv bid.jobID bid.id] }

/-- checkForPendingBids (src/pkg/requester/scheduler_state.go, lines 80 to
88). -/
def checkForPendingBids (d : Deps) (job : Job) (jobState : JobState)
    (s : SchedState) : SchedState :=
  let bids := d.selectBids job jobState
  let s1 := bids.1.foldl (fun acc bid => updateAndNotifyBidAccepted bid acc) s
  bids.2.foldl (fun acc bid => updateAndNotifyBidRejected bid acc) s1

/-- Modelled from the spec, section 4.6 step 4: the marking half of
verifyResult: succeeded executions become ResultAccepted (publish
ResultAccepted), failed ones ResultRejected (publish ResultRejected). -/
def markVerificationResults (succeeded failed : List ExecutionState)
    (s : SchedState) : SchedState :=
  let s1 := succeeded.foldl (fun acc e =>
    match acc.store.updateExecState e.jobID e.id .resultAccepted with
    | none => acc
    | some st =>
        { acc with store := st, events := acc.events ++ [OutEvent.resultAcceptedEv e.jobID e.id] }) s
  failed.foldl (fun acc e =>
    match acc.store.updateExecState e.jobID e.id .resultRejected with
    | none => acc
    | some st =>
        { acc with store := st, events := acc.events ++ [OutEvent.resultRejectedEv e.jobID e.id] }) s1

/-- The verification-failure message of scheduler_state.go line 106. -/
def verifyFailMessage (jobID msg : String) : String :=
  "failed to verify job " ++ jobID ++ ": " ++ msg

/-- checkForPendingResults (src/pkg/requester/scheduler_state.go, lines 91
to 113).  The recursive re-invocation of transitionJobStateLockFree is
passed in as the recurse continuation. -/
def checkForPendingResults (recurse : SchedState → SchedState) (d : Deps)
    (job : Job) (jobState : JobState) (s : SchedState) : SchedState :=
  let proposed := jobState.executions.filter (fun e => e.state == .resultProposed)
  if 1 ≤ proposed.length then
    match d.verify job proposed with
    | .insufficient => s
    | .hardError msg => stopJob job.id (verifyFailMessage job.id msg) false s
    | .ok succeeded failed =>
      let s1 := markVerificationResults succeeded failed s
      if 0 < failed.length then recurse s1 else s1
  else s

/-- checkForCompletedExecutions (src/pkg/requester/scheduler_state.go, lines
116 to 134). -/
def checkForCompletedExecutions (d : Deps) (job : Job) (jobState : JobState)
    (s : SchedState) : SchedState :=
  let dec := d.canCompleteJob job jobState
  if dec.1 then
    match s.store.updateJobState job.id dec.2 with
    | none => s
    | some st => { s with store := st }
  else s

/-- transitionJobStateLockFree (src/pkg/requester/scheduler_state.go, lines
26 to 50): load the JobState, return if it is terminal, load the Job, then
run the four checks on the loaded snapshot.  Fuel bounds the re-invocation
from checkForPendingResults; with zero fuel the call returns the state
unchanged. -/
def transitionJobStateLockFree (d : Deps) : Nat → String → SchedState → SchedState
  | 0, _, s => s
  | fuel + 1, jobID, s =>
    match s.store.states.lookup jobID with
    | none => s
    | some jobState =>
      if jobState.state.isTerminal then s
      else
        match s.store.jobs.lookup jobID with
        | none => s
        | some job =>
          let s1 := checkForFailedExecutions d job jobState s
          let s2 := checkForPendingBids d job jobState s1
          let s3 := checkForPendingResults
            (fun t => transitionJobStateLockFree d fuel jobID t) d job jobState s2
          checkForCompletedExecutions d job jobState s3

/-- TransitionJobState (src/pkg/requester/scheduler_state.go, lines 20 to
24): take the scheduler mutex (a no-op in this sequential embedding) and
run the lock-free transition. -/
def TransitionJobState (d : Deps) (fuel : Nat) (jobID : String) (s : SchedState) : SchedState :=
  transitionJobStateLockFree d fuel jobID s

/-- Inbound events from the transport (spec sections 4.6 and 6). -/
inductive InEvent
  | bidReceivedEv (jobID nodeID : String)
  | bidCancelledEv (jobID nodeID : String)
  | computeErrorEv (jobID nodeID : String) (err : String)
  | resultProposedEv (jobID nodeID : String)
  | publishedEv (jobID nodeID : String)
  | cancelledEv (jobID : String)
deriving DecidableEq, Repr

/-- The job an inbound event targets. -/
def InEvent.jobID : InEvent → String
  | .bidReceivedEv j _ => j
  | .bidCancelledEv j _ => j
  | .computeErrorEv j _ _ => j
  | .resultProposedEv j _ => j
  | .publishedEv j _ => j
  | .cancelledEv j => j

/-- Apply a store update produced for an inbound event; a rejected update
(unknown or terminal job) is silently dropped (spec section 7,
JobTerminated). -/
def applyExecUpd (jobID nodeID : String) (st : ExecStateType) (msg : String)
    (s : SchedState) : SchedState :=
  match s.store.updateExecByNode jobID nodeID st msg with
  | none => s
  | some store1 => { s with store := store1 }

/-- Modelled from the spec, section 4.6: the inbound event to local effect
table.  Cancelled moves the JobState to Cancelled and publishes
CancelExecution to every node holding a non-terminal execution; updates of
terminal jobs are silently dropped. -/
def applyLocalEffect (e : InEvent) (s : SchedState) : SchedState :=
  match e with
  | .bidReceivedEv j n => applyExecUpd j n .bidReceived "" s
  | .bidCancelledEv j n => applyExecUpd j n .failed "bid withdrawn" s
  | .computeErrorEv j n msg => applyExecUpd j n .failed msg s
  | .resultProposedEv j n => applyExecUpd j n .resultProposed "" s
  | .publishedEv j n => applyExecUpd j n .completed "" s
  | .cancelledEv j =>
    match s.store.states.lookup j with
    | none => s
    | some js =>
      if js.state.isTerminal then s
      else
        { s with
          store := s.store.setJobState j { js with state := .cancelled },
          events :=
            s.events ++
              (js.executions.filter (fun ex => !ex.state.isTerminalExec)).map (fun ex =>
                OutEvent.cancelExecution j ex.nodeID) }

/-- Modelled from the spec, section 4.6: OnEvent applies the local effect of
the inbound event and then reconciles the targeted job. -/
def OnEvent (d : Deps) (fuel : Nat) (e : InEvent) (s : SchedState) : SchedState :=
  TransitionJobState d fuel e.jobID (applyLocalEffect e s)

/-! ### Job construction: annotation admission (src/pkg/job/factory.go) -/

/-- The annotation-filtering loop of ConstructDockerJob
(src/pkg/job/factory.go, lines 50 to 58): an annotation is admitted exactly
when it passes the safety predicate and is not the empty string; the rest
are collected for the warning log.  IsSafeAnnotation lives outside the
given sources, so it is a parameter. -/
def admittedAnnots (isSafe : String → Bool) (annots : List String) : List String :=
  annots.filter (fun a => isSafe a && a != "")

/-- The annotations that are stripped by the loop above (the unSafe list
whose non-emptiness triggers the warning log in factory.go lines 60 to 64). -/
def strippedAnnots (isSafe : String → Bool) (annots : List String) : List String :=
  annots.filter (fun a => !(isSafe a && a != ""))

/-- Modelled from the spec, section 3: the safety regex for annotations.
The spec does not fix the regex body; the log message in factory.go shows
it is a character-class pattern, so it is modelled as a character-class
Kleene star (alphanumerics plus dot, underscore and dash), which, as every
Kleene-star pattern, accepts the empty string. -/
def isSafeAnnotModel (a : String) : Bool :=
  a.data.all (fun c => c.isAlphanum || c == '.' || c == '_' || c == '-')

/-! ### Public API surface (src/pkg/test/publicapi/server_test.go) -/

/-- Possible answers of the GET /states endpoint as observed by the client
in TestMaxBodyReader. -/
inductive ApiResp
  | ok
  | notFound
  | tooLarge
deriving DecidableEq, Repr

/-- The header budget of TestMaxBodyReader (src/pkg/test/publicapi/
server_test.go line 136: due to headers we need MaxBytes minus 163). -/
def headerBudget : Nat := 163

/-- Modelled from the spec, section 6: the server reads at most
MaxBytesToReadInBody bytes of a request; a GET /states request occupies the
header budget plus its URL path, answers 413 request body too large when
that exceeds the cap, and otherwise succeeds or answers Job not found. -/
def getStatesResponse (maxBytes pathLen : Nat) (jobKnown : Bool) : ApiResp :=
  if maxBytes < headerBudget + pathLen then ApiResp.tooLarge
  else if jobKnown then ApiResp.ok
  else ApiResp.notFound

/-- The test table of TestMaxBodyReader (src/pkg/test/publicapi/
server_test.go lines 129 to 160): cap 500, boundary 500 - 163, cases
(size, expectError). -/
def maxBodyTestCap : Nat := 500

def maxSizeOfString : Nat := maxBodyTestCap - 163

def maxBodyTestCases : List (Nat × Bool) :=
  [(maxSizeOfString - 1, false), (maxSizeOfString, false), (maxSizeOfString + 1, true)]

/-- The modelled endpoint reproduces the expectations of the source test
table. -/
theorem getStates_matches_test_table :
    maxBodyTestCases.all
      (fun tc => (getStatesResponse maxBodyTestCap tc.1 false == ApiResp.tooLarge) == tc.2) = true := by
  decide

/-- The assertions of TestHealthz (src/pkg/test/publicapi/server_test.go,
lines 71 to 83): All is greater than zero and All is greater than Free. -/
def healthzTestPasses (all free : Nat) : Bool :=
  decide (0 < all) && decide (free < all)

/-- The property claimed of the healthz payload, following the spec words
All greater than Free greater than zero, for comparison with the test. -/
def healthzClaimHolds (all free : Nat) : Bool :=
  decide (free < all) && decide (0 < free)

/-! ### Transport events (src/unnamed/part_001, TestTransportEvents) -/

/-- The job event constants appearing in TestTransportEvents. -/
inductive JobEventType
  | created
  | bid
  | bidAccepted
  | results
deriving DecidableEq, Repr

/-- Modelled from the spec: the String rendering of the job event
constants; the rendering itself is outside the given sources, so the Go
constant names are used. -/
def JobEventType.render : JobEventType → String
  | .created => "JobEventCreated"
  | .bid => "JobEventBid"
  | .bidAccepted => "JobEventBidAccepted"
  | .results => "JobEventResults"

/-- The expected event-name list of TestTransportEvents (src/unnamed/
part_001, lines 178 to 183) for the concurrency-1 noop run; the test
requires the observed events to equal these after sorting. -/
def expectedEventNames : List String :=
  [JobEventType.created.render, JobEventType.bid.render,
   JobEventType.bidAccepted.render, JobEventType.results.render]

/-- The event-name list the claim expects, written from the claim words. -/
def claimC9EventNames : List String :=
  ["BidAccepted", "Created", "Results", "ResultAccepted", "Published"]

/-- Lexicographic comparison of character lists by code point, the order
sort.Strings uses on these ASCII names. -/
def charsLe : List Char → List Char → Bool
  | [], _ => true
  | _ :: _, [] => false
  | a :: as, b :: bs =>
    if a.val < b.val then true
    else if b.val < a.val then false
    else charsLe as bs

def strLeB (a b : String) : Bool := charsLe a.data b.data

/-- Insertion into a sorted list of strings, mirroring sort.Strings. -/
def insertSortedStr (a : String) : List String → List String
  | [] => [a]
  | b :: rest => if strLeB a b then a :: b :: rest else b :: insertSortedStr a rest

/-- Ascending string sort, mirroring sort.Strings of the test. -/
def sortStrings : List String → List String
  | [] => []
  | a :: rest => insertSortedStr a (sortStrings rest)

/-! ### Docker cache initialization (src/pkg/docker/cache.go) -/

/-- One hour in nanoseconds, the value of time.ParseDuration of 1h. -/
def oneHourNs : Nat := 3600 * 1000000000

def DefaultCacheSize : Nat := 1000

def tagCacheSizeEnvVar : String := "DOCKER_TAG_CACHE_SIZE"
def tagCacheDurationEnvVar : String := "DOCKER_TAG_CACHE_DURATION"
def tagCacheCheckFrequencyEnvVar : String := "DOCKER_TAG_CACHE_FREQUENCY"
def manifestCacheSizeEnvVar : String := "DOCKER_MANIFEST_CACHE_SIZE"
def manifestCacheDurationEnvVar : String := "DOCKER_MANIFEST_CACHE_DURATION"
def manifestCacheCheckFrequencyEnvVar : String := "DOCKER_MANIFEST_CACHE_FREQUENCY"

/-- util.GetEnvAs with the environment lookup and the parser fused into one
Option-valued map (the parser and raw environment live outside the given
sources): the parsed environment value when present, the default
otherwise. -/
def getEnvAs (env : String → Option Nat) (key : String) (deflt : Nat) : Nat :=
  match env key with
  | some v => v
  | none => deflt

/-- The configuration each cache is constructed with in cache.go (basic.
NewCache options WithCleanupFrequency, WithMaxCost, WithTTL). -/
structure CacheConfig where
  cleanupFrequency : Nat
  maxCost : Nat
  ttl : Nat
deriving DecidableEq, Repr

/-- The observable outcome of the init function of src/pkg/docker/cache.go:
the final values of the three exported duration variables and the
configurations of the two caches. -/
structure DockerCacheInitResult where
  DefaultCacheDuration : Nat
  DefaultTagCacheFrequency : Nat
  DefaultManifestCacheFrequency : Nat
  tagCache : CacheConfig
  manifestCache : CacheConfig
deriving DecidableEq, Repr

/-- The init function of src/pkg/docker/cache.go (lines 32 to 75).  The Go
statement DefaultCacheDuration, _ := time.ParseDuration of 1h uses a short
variable declaration, which declares a new local shadowing the package
variable: the package-level DefaultCacheDuration keeps its zero value,
while every later use of the name inside init refers to the one-hour
local. -/
def dockerCacheInit (env : String → Option Nat) : DockerCacheInitResult :=
  let localDefaultCacheDuration := oneHourNs
  let defaultTagCacheFrequency := localDefaultCacheDuration
  let defaultManifestCacheFrequency := localDefaultCacheDuration
  let tagCacheDuration := getEnvAs env tagCacheDurationEnvVar localDefaultCacheDuration
  let tagCacheFrequency := getEnvAs env tagCacheCheckFrequencyEnvVar defaultTagCacheFrequency
  let manifestCacheDuration := getEnvAs env manifestCacheDurationEnvVar localDefaultCacheDuration
  let manifestCacheFrequency :=
    getEnvAs env manifestCacheCheckFrequencyEnvVar defaultManifestCacheFrequency
  let tagCacheSize := getEnvAs env tagCacheSizeEnvVar DefaultCacheSize
  let manifestCacheSize := getEnvAs env manifestCacheSizeEnvVar DefaultCacheSize
  { DefaultCacheDuration := 0,
    DefaultTagCacheFrequency := defaultTagCacheFrequency,
    DefaultManifestCacheFrequency := defaultManifestCacheFrequency,
    tagCache :=
      { cleanupFrequency := tagCacheFrequency, maxCost := tagCacheSize, ttl := tagCacheDuration },
    manifestCache :=
      { cleanupFrequency := manifestCacheFrequency, maxCost := manifestCacheSize,
        ttl := manifestCacheDuration } }

/-! ### Concrete dependency instances and stores used by the theorems -/

/-- A dependency instance whose selectors propose nothing: no retry nodes,
no bids, verification still waiting, completion not yet possible. -/
def inertDeps : Deps :=
  { selectNodesForRetry := fun _ _ => ([], none),
    shouldRetry := fun _ => true,
    selectBids := fun _ _ => ([], []),
    verify := fun _ _ => .insufficient,
    canCompleteJob := fun _ _ => (false, .inProgress) }

/-- Dependencies whose verifier reports a hard error. -/
def depsHardErr : Deps :=
  { inertDeps with verify := fun _ _ => .hardError "boom" }

def jobJ : Job := { id := "j" }

/-- A job state holding one execution that has proposed a result. -/
def jsOneProposed : JobState :=
  { state := .inProgress, status := "",
    executions := [{ id := 0, jobID := "j", nodeID := "a", state := .resultProposed,
                     status := "", updateTime := 1 }] }

/-- Scheduler state for the hard-verifier-error scenario. -/
def sHardErr : SchedState :=
  { store := { jobs := [("j", jobJ)], states := [("j", jsOneProposed)] },
    events := [], stops := [] }

/-- A terminal job state (failed) with no executions. -/
def jsDone : JobState := { state := .failed, status := "done", executions := [] }

/-- Scheduler state holding one terminal job, for the terminal-invariance
scenario. -/
def sTerminal : SchedState :=
  { store := { jobs := [("jt", { id := "jt" })], states := [("jt", jsDone)] },
    events := [], stops := [] }

/-- Dependencies whose retry selection fails with an error while proposing
no nodes. -/
def depsSelErr : Deps :=
  { inertDeps with selectNodesForRetry := fun _ _ => ([], some "selection failed") }

/-- An in-progress job state with no executions at all. -/
def jsNoExecs : JobState := { state := .inProgress, status := "", executions := [] }

/-- Scheduler state for the selector-error scenario. -/
def sSelErr : SchedState :=
  { store := { jobs := [("j", jobJ)], states := [("j", jsNoExecs)] },
    events := [], stops := [] }

/-- A job state holding one execution that has proposed a result, for the
insufficient-executions scenario. -/
def jsAwaiting : JobState :=
  { state := .inProgress, status := "",
    executions := [{ id := 0, jobID := "j", nodeID := "a", state := .resultProposed,
                     status := "", updateTime := 2 }] }

/-- Scheduler state for the insufficient-executions scenario. -/
def sAwaiting : SchedState :=
  { store := { jobs := [("j", jobJ)], states := [("j", jsAwaiting)] },
    events := [], stops := [] }

/-- A retry selector that follows the spec words of section 4.3: while a
Failed execution exists, propose an alternate node not previously tried
(fresh names of growing length), with the retry budget never exhausted. -/
def depsFreshRetry : Deps :=
  { inertDeps with
    selectNodesForRetry := fun _ js =>
      if js.executions.any (fun e => e.state == .failed) then
        ([String.mk (List.replicate (js.executions.length + 1) 'n')], none)
      else ([], none) }

/-- Scheduler state with one failed execution, for the idempotence
scenario. -/
def sOneFailed : SchedState :=
  { store :=
      { jobs := [("j", jobJ)],
        states := [("j", { state := .inProgress, status := "",
                           executions := [{ id := 0, jobID := "j", nodeID := "a",
                                            state := .failed, status := "boom",
                                            updateTime := 1 }] })] },
    events := [], stops := [] }

/-- Scheduler state holding one terminal (cancelled) job, for the
idempotence witness. -/
def sTerminal2 : SchedState :=
  { store := { jobs := [("jc", { id := "jc" })],
               states := [("jc", { state := .cancelled, status := "", executions := [] })] },
    events := [], stops := [] }

/-! ### Helper lemmas -/

theorem transition_terminal (d : Deps) (fuel : Nat) (jobID : String) (s : SchedState)
    (js : JobState) (h1 : s.store.states.lookup jobID = some js)
    (h2 : js.state.isTerminal = true) :
    TransitionJobState d fuel jobID s = s := by
  cases fuel with
  | zero => rfl
  | succ n =>
    unfold TransitionJobState transitionJobStateLockFree
    rw [h1]
    simp [h2]

theorem applyLocalEffect_terminal (e : InEvent) (s : SchedState) (js : JobState)
    (h1 : s.store.states.lookup (InEvent.jobID e) = some js)
    (h2 : js.state.isTerminal = true) :
    applyLocalEffect e s = s := by
  cases e <;>
    simp only [applyLocalEffect, applyExecUpd, Store.updateExecByNode, InEvent.jobID] at h1 ⊢ <;>
    rw [h1] <;> simp [h2]

theorem stopJob_stops (jobID msg : String) (p : Bool) (s : SchedState) :
    (stopJob jobID msg p s).stops = s.stops ++ [(jobID, msg, p)] := by
  unfold stopJob
  cases h : s.store.states.lookup jobID with
  | none => simp [h]
  | some js => by_cases ht : js.state.isTerminal <;> simp [h, ht]

theorem askOneNode_trace (job : Job) (node : String) (s : SchedState) :
    (askOneNode job node s).events = s.events ++ [OutEvent.askForBid job.id node] ∧
    (askOneNode job node s).stops = s.stops := by
  unfold askOneNode
  cases h : s.store.states.lookup job.id with
  | none => simp [h]
  | some js => by_cases ht : js.state.isTerminal <;> simp [h, ht]

theorem notifyAskForBid_trace (job : Job) (nodes : List String) (s : SchedState) :
    (notifyAskForBid job nodes s).events =
      s.events ++ nodes.map (fun n => OutEvent.askForBid job.id n) ∧
    (notifyAskForBid job nodes s).stops = s.stops := by
  induction nodes generalizing s with
  | nil => simp [notifyAskForBid]
  | cons n rest ih =>
    have hone := askOneNode_trace job n s
    have hrest := ih (askOneNode job n s)
    constructor
    · show (notifyAskForBid job (n :: rest) s).events = _
      have : notifyAskForBid job (n :: rest) s = notifyAskForBid job rest (askOneNode job n s) := rfl
      rw [this, hrest.1, hone.1]
      simp
    · have : notifyAskForBid job (n :: rest) s = notifyAskForBid job rest (askOneNode job n s) := rfl
      rw [this, hrest.2, hone.2]

/-! ### Claim C1 -/

/-- Claim C1, counterexample: in a run where the verifier reports a hard
error on a job with one proposed result, the only stopJob call carries the
boolean false, not true as the claim states (scheduler_state.go line 106
passes false). -/
theorem c1_counterexample :
    (TransitionJobState depsHardErr 2 "j" sHardErr).stops =
      [("j", "failed to verify job j: boom", false)] := by
  decide

/-- Claim C1 (amended): for every job and every verification attempt, when
the verifier returns a hard error (an error that is not
InsufficientExecutions), the pending-results check terminates the job by
calling stopJob with the verification-failure message and permanent set to
false. -/
theorem c1_hard_error_stops_with_false (recurse : SchedState → SchedState) (d : Deps)
    (job : Job) (jobState : JobState) (s : SchedState) (msg : String)
    (hp : 1 ≤ (jobState.executions.filter (fun e => e.state == ExecStateType.resultProposed)).length)
    (hv : d.verify job
        (jobState.executions.filter (fun e => e.state == ExecStateType.resultProposed)) =
      VerifyOutcome.hardError msg) :
    (checkForPendingResults recurse d job jobState s).stops =
      s.stops ++ [(job.id, verifyFailMessage job.id msg, false)] := by
  unfold checkForPendingResults
  rw [if_pos hp, hv]
  exact stopJob_stops _ _ _ _

/-- Witness for the amended claim C1 at a concrete hard-error scenario. -/
theorem c1_witness :
    (checkForPendingResults (fun t => t) depsHardErr jobJ jsOneProposed sHardErr).stops =
      sHardErr.stops ++ [(jobJ.id, verifyFailMessage jobJ.id "boom", false)] :=
  c1_hard_error_stops_with_false (fun t => t) depsHardErr jobJ jsOneProposed sHardErr "boom"
    (by decide) (by decide)

/-! ### Claim C2 -/

/-- Claim C2: for every job whose JobState is terminal, every invocation of
TransitionJobState and every inbound event targeting the job leaves the
store unchanged: the terminal JobState never transitions again. -/
theorem c2_terminal_never_transitions (d : Deps) (fuel : Nat) (jobID : String)
    (s : SchedState) (js : JobState)
    (h1 : s.store.states.lookup jobID = some js) (h2 : js.state.isTerminal = true) :
    (TransitionJobState d fuel jobID s).store = s.store ∧
    ∀ e : InEvent, InEvent.jobID e = jobID → (OnEvent d fuel e s).store = s.store := by
  constructor
  · rw [transition_terminal d fuel jobID s js h1 h2]
  · intro e he
    have hle : applyLocalEffect e s = s :=
      applyLocalEffect_terminal e s js (by rw [he]; exact h1) h2
    unfold OnEvent
    rw [hle, he, transition_terminal d fuel jobID s js h1 h2]

/-- Witness for claim C2 at a concrete terminal job, including a concrete
inbound event. -/
theorem c2_witness :
    (TransitionJobState inertDeps 1 "jt" sTerminal).store = sTerminal.store ∧
    (OnEvent inertDeps 1 (InEvent.cancelledEv "jt") sTerminal).store = sTerminal.store :=
  ⟨(c2_terminal_never_transitions inertDeps 1 "jt" sTerminal jsDone (by decide) (by decide)).1,
   (c2_terminal_never_transitions inertDeps 1 "jt" sTerminal jsDone (by decide) (by decide)).2
     (InEvent.cancelledEv "jt") rfl⟩

/-! ### Claim C3 -/

/-- Claim C3, counterexample: when the retry selector returns an error
together with an empty node list, the job is stopped even though the node
list is empty and retrying is permitted, contradicting the claim that the
job is stopped in no other case of the failed-execution check. -/
theorem c3_counterexample :
    (depsSelErr.selectNodesForRetry jobJ jsNoExecs).1 = [] ∧
    depsSelErr.shouldRetry "j" = true ∧
    (checkForFailedExecutions depsSelErr jobJ jsNoExecs sSelErr).stops = [("j", "", false)] := by
  decide

/-- Claim C3 (amended): the failed-execution check stops the job (with the
aggregated failure reasons and permanent false) exactly when the retry
selection returns an error or returns a non-empty node list while
ShouldRetry is false; when selection succeeds with a non-empty list and
ShouldRetry is true it emits AskForBid to exactly the selected nodes; and
when selection succeeds with an empty list nothing happens. -/
theorem c3_failed_check_characterization (d : Deps) (job : Job) (jobState : JobState)
    (s : SchedState) :
    (((d.selectNodesForRetry job jobState).2.isSome = true ∨
        ((d.selectNodesForRetry job jobState).1 ≠ [] ∧ d.shouldRetry job.id = false)) →
      (checkForFailedExecutions d job jobState s).stops =
        s.stops ++ [(job.id, aggregatedFailureMessage jobState.executions, false)]) ∧
    (((d.selectNodesForRetry job jobState).2 = none ∧
        (d.selectNodesForRetry job jobState).1 ≠ [] ∧ d.shouldRetry job.id = true) →
      (checkForFailedExecutions d job jobState s).events =
        s.events ++
          (d.selectNodesForRetry job jobState).1.map (fun n => OutEvent.askForBid job.id n) ∧
      (checkForFailedExecutions d job jobState s).stops = s.stops) ∧
    (((d.selectNodesForRetry job jobState).2 = none ∧
        (d.selectNodesForRetry job jobState).1 = []) →
      checkForFailedExecutions d job jobState s = s) := by
  refine ⟨?_, ?_, ?_⟩
  · intro h
    unfold checkForFailedExecutions
    have hcond : ((d.selectNodesForRetry job jobState).2.isSome ||
        (decide (0 < (d.selectNodesForRetry job jobState).1.length) &&
          !d.shouldRetry job.id)) = true := by
      rcases h with h | ⟨hne, hsr⟩
      · simp [h]
      · simp [hsr, List.length_pos.mpr hne]
    rw [if_pos hcond]
    exact stopJob_stops _ _ _ _
  · intro ⟨hnone, hne, hsr⟩
    unfold checkForFailedExecutions
    have hcond : ((d.selectNodesForRetry job jobState).2.isSome ||
        (decide (0 < (d.selectNodesForRetry job jobState).1.length) &&
          !d.shouldRetry job.id)) = false := by
      simp [hnone, hsr]
    rw [if_neg (by simp [hcond]), if_pos (List.length_pos.mpr hne)]
    exact notifyAskForBid_trace job (d.selectNodesForRetry job jobState).1 s
  · intro ⟨hnone, hnil⟩
    unfold checkForFailedExecutions
    rw [if_neg (by simp [hnone, hnil]), if_neg (by simp [hnil])]

/-- Witness for the amended claim C3 at the concrete selector-error
scenario. -/
theorem c3_witness :
    (checkForFailedExecutions depsSelErr jobJ jsNoExecs sSelErr).stops =
      sSelErr.stops ++ [(jobJ.id, aggregatedFailureMessage jsNoExecs.executions, false)] :=
  (c3_failed_check_characterization depsSelErr jobJ jsNoExecs sSelErr).1 (Or.inl (by decide))

/-! ### Claim C4 -/

/-- Claim C4: for every job with at least one execution in ResultProposed,
when the verifier reports InsufficientExecutions the pending-results check
returns the scheduler state unchanged: no stop, no store change, no event;
InsufficientExecutions is never treated as a hard error. -/
theorem c4_insufficient_waits (recurse : SchedState → SchedState) (d : Deps)
    (job : Job) (jobState : JobState) (s : SchedState)
    (hp : 1 ≤ (jobState.executions.filter (fun e => e.state == ExecStateType.resultProposed)).length)
    (hv : d.verify job
        (jobState.executions.filter (fun e => e.state == ExecStateType.resultProposed)) =
      VerifyOutcome.insufficient) :
    checkForPendingResults recurse d job jobState s = s := by
  unfold checkForPendingResults
  rw [if_pos hp, hv]

/-- Witness for claim C4 at a concrete awaiting-verification scenario. -/
theorem c4_witness :
    checkForPendingResults (fun t => t) inertDeps jobJ jsAwaiting sAwaiting = sAwaiting :=
  c4_insufficient_waits (fun t => t) inertDeps jobJ jsAwaiting sAwaiting (by decide) (by decide)

/-! ### Claim C5 -/

/-- Claim C5, counterexample: TransitionJobState is not idempotent.  With a
retry selector that follows the spec (propose an untried alternate node for
a Failed execution, budget not exhausted), a second invocation creates a
further AskedToBid execution, so the job state after two invocations
differs from the state after one. -/
theorem c5_counterexample :
    (TransitionJobState depsFreshRetry 2 "j"
        (TransitionJobState depsFreshRetry 2 "j" sOneFailed)).store.states.lookup "j" ≠
      (TransitionJobState depsFreshRetry 2 "j" sOneFailed).store.states.lookup "j" := by
  decide

/-- Claim C5 (amended): TransitionJobState is idempotent once the job has
reached a terminal JobState after the first invocation, and trivially when
the first invocation leaves the scheduler state unchanged; it is not
idempotent in general because a second invocation can create additional
executions through retry selection. -/
theorem c5_idempotent_terminal_or_quiescent (d : Deps) (fuel : Nat) (jobID : String)
    (s : SchedState)
    (h : (∃ js, (TransitionJobState d fuel jobID s).store.states.lookup jobID = some js ∧
          js.state.isTerminal = true) ∨
        TransitionJobState d fuel jobID s = s) :
    TransitionJobState d fuel jobID (TransitionJobState d fuel jobID s) =
      TransitionJobState d fuel jobID s := by
  rcases h with ⟨js, h1, h2⟩ | h
  · exact transition_terminal d fuel jobID _ js h1 h2
  · simp only [h]

/-- Witness for the amended claim C5 at a concrete terminal job. -/
theorem c5_witness :
    TransitionJobState inertDeps 1 "jc" (TransitionJobState inertDeps 1 "jc" sTerminal2) =
      TransitionJobState inertDeps 1 "jc" sTerminal2 :=
  c5_idempotent_terminal_or_quiescent inertDeps 1 "jc" sTerminal2
    (Or.inl ⟨{ state := .cancelled, status := "", executions := [] }, by decide, by decide⟩)

/-! ### Claim C6 -/

/-- Claim C6, counterexample: under the modelled character-class safety
regex the empty string is safe (Kleene star), yet the construction strips
it, so the admitted list is not exactly the safe annotations of the
input. -/
theorem c6_counterexample :
    isSafeAnnotModel "" = true ∧
    admittedAnnots isSafeAnnotModel [""] = [] ∧
    List.filter (fun a => isSafeAnnotModel a) [""] = [""] := by
  decide

/-- Claim C6 (amended): every annotation failing the safety predicate is
stripped and never admitted, and the admitted annotation list contains
exactly the safe and non-empty annotations of the input. -/
theorem c6_safe_annotations_admitted (isSafe : String → Bool) (l : List String) :
    (∀ a, a ∈ admittedAnnots isSafe l → a ∈ l ∧ isSafe a = true ∧ a ≠ "") ∧
    (∀ a, a ∈ l → isSafe a = true → a ≠ "" → a ∈ admittedAnnots isSafe l) := by
  constructor <;> intro a
  · intro h
    simp only [admittedAnnots, List.mem_filter, Bool.and_eq_true, bne_iff_ne, ne_eq] at h
    exact ⟨h.1, h.2.1, h.2.2⟩
  · intro hl hs hne
    simp only [admittedAnnots, List.mem_filter, Bool.and_eq_true, bne_iff_ne, ne_eq]
    exact ⟨hl, hs, hne⟩

/-- Witness for the amended claim C6: a safe non-empty annotation is
admitted. -/
theorem c6_witness : "ok" ∈ admittedAnnots isSafeAnnotModel ["", "ok"] :=
  (c6_safe_annotations_admitted isSafeAnnotModel ["", "ok"]).2 "ok" (by decide) (by decide)
    (by decide)

/-! ### Claim C7 -/

/-- Claim C7: with the body cap at 500 bytes, a GET /states request whose
path exceeds 337 bytes answers 413 request body too large, and one with a
path of at most 336 bytes never answers 413. -/
theorem c7_body_cap (n : Nat) (known : Bool) :
    (337 < n → getStatesResponse 500 n known = ApiResp.tooLarge) ∧
    (n ≤ 336 → getStatesResponse 500 n known ≠ ApiResp.tooLarge) := by
  constructor
  · intro h
    unfold getStatesResponse headerBudget
    rw [if_pos (by omega)]
  · intro h
    unfold getStatesResponse headerBudget
    rw [if_neg (by omega)]
    cases known <;> simp

/-- Witness for claim C7 at the boundary path lengths 338 and 336. -/
theorem c7_witness :
    getStatesResponse 500 338 false = ApiResp.tooLarge ∧
    getStatesResponse 500 336 false ≠ ApiResp.tooLarge :=
  ⟨(c7_body_cap 338 false).1 (by decide), (c7_body_cap 336 false).2 (by decide)⟩

/-! ### Claim C8 -/

/-- Claim C8, counterexample: a healthz payload with All equal to one and
Free equal to zero passes every assertion of TestHealthz yet violates the
claimed property that Free is strictly positive. -/
theorem c8_counterexample :
    healthzTestPasses 1 0 = true ∧ healthzClaimHolds 1 0 = false := by
  decide

/-- Claim C8 (amended): every healthz payload passing the repository's
TestHealthz assertions satisfies All greater than Free and All greater than
zero; Free greater than zero is not guaranteed. -/
theorem c8_healthz_guarantee (all free : Nat) (h : healthzTestPasses all free = true) :
    free < all ∧ 0 < all := by
  unfold healthzTestPasses at h
  simp only [Bool.and_eq_true, decide_eq_true_eq] at h
  exact ⟨h.2, h.1⟩

/-- Witness for the amended claim C8 at a concrete payload. -/
theorem c8_witness : healthzTestPasses 2 1 = true ∧ (1 < 2 ∧ 0 < 2) :=
  ⟨by decide, c8_healthz_guarantee 2 1 (by decide)⟩

/-! ### Claim C9 -/

/-- Claim C9, counterexample: the test's expected event list for the
concurrency-1 run has four events while the claim lists five; since sorting
and any renaming preserve length, the sorted observed names cannot equal
the claimed list under any analogous naming. -/
theorem c9_counterexample :
    expectedEventNames.length = 4 ∧ claimC9EventNames.length = 5 ∧
    sortStrings expectedEventNames ≠ sortStrings claimC9EventNames := by
  decide

/-- Claim C9 (amended): for the concurrency-1 noop run of
TestTransportEvents, the sorted observed event names equal the four names
JobEventBid, JobEventBidAccepted, JobEventCreated and JobEventResults; the
test asserts no ResultAccepted or Published event and no final JobState. -/
theorem c9_transport_events :
    sortStrings expectedEventNames =
      ["JobEventBid", "JobEventBidAccepted", "JobEventCreated", "JobEventResults"] ∧
    expectedEventNames.length = 4 := by
  decide

/-! ### Claim C10 -/

/-- Claim C10: after the init of the docker cache package the exported
DefaultCacheDuration holds the zero duration (the short variable
declaration shadows it), DefaultTagCacheFrequency and
DefaultManifestCacheFrequency hold one hour, and with the duration
environment variables unset both caches are built with a one-hour TTL. -/
theorem c10_cache_init (env : String → Option Nat)
    (ht : env tagCacheDurationEnvVar = none)
    (hm : env manifestCacheDurationEnvVar = none) :
    (dockerCacheInit env).DefaultCacheDuration = 0 ∧
    (dockerCacheInit env).DefaultTagCacheFrequency = oneHourNs ∧
    (dockerCacheInit env).DefaultManifestCacheFrequency = oneHourNs ∧
    (dockerCacheInit env).tagCache.ttl = oneHourNs ∧
    (dockerCacheInit env).manifestCache.ttl = oneHourNs := by
  unfold dockerCacheInit getEnvAs
  rw [ht, hm]
  simp

/-- Witness for claim C10 with every environment variable unset. -/
theorem c10_witness :
    (dockerCacheInit (fun _ => none)).DefaultCacheDuration = 0 ∧
    (dockerCacheInit (fun _ => none)).DefaultTagCacheFrequency = oneHourNs ∧
    (dockerCacheInit (fun _ => none)).DefaultManifestCacheFrequency = oneHourNs ∧
    (dockerCacheInit (fun _ => none)).tagCache.ttl = oneHourNs ∧
    (dockerCacheInit (fun _ => none)).manifestCache.ttl = oneHourNs :=
  c10_cache_init (fun _ => none) rfl rfl

end Bacalhau
